import Mathlib

/-!
Verification development for the fuzemill workflow orchestrator
(`src/main.rs`).  The Rust handlers are shallowly embedded as pure Lean
functions over environment records that fix the outcome of every external
subprocess invocation: `none` models a failure to even execute the command
(the Rust `Err` arm of `.status()` / `.output()`, made fatal by
`.context(..)?`), while `some b` models a spawned process whose exit
status satisfies `success = b`; output-capturing calls additionally carry
the captured stdout (or stderr where the source reads stderr).  Each
handler returns the `Except` value of the Rust function together with the
ordered list of external effects it attempted, so that theorems can speak
both about outcomes and about which side effects were or were not
performed.  Filesystem paths are modelled as their lists of components.
-/

namespace Fuzemill

/-- Absolute filesystem paths, modelled as the list of path components. -/
abbrev Path := List String

/-- `Path::parent`: drop the last component; `none` at the filesystem root
(mirrors Rust returning `None` there). -/
def parentDir (p : Path) : Option Path :=
  match p with
  | [] => none
  | _ :: _ => some p.dropLast

/-- Rendering of a path for user-facing messages (`.display()`). -/
def displayPath (p : Path) : String :=
  p.foldl (fun acc c => acc ++ "/" ++ c) ""

/-- Splits a raw string on `/`, dropping empty components, producing the
component list of `PathBuf::from(s)`. -/
def splitSlashAux : List Char → List Char → List String
  | [], cur => if cur.isEmpty then [] else [String.mk cur.reverse]
  | c :: cs, cur =>
    if c = '/' then
      (if cur.isEmpty then [] else [String.mk cur.reverse]) ++ splitSlashAux cs []
    else splitSlashAux cs (c :: cur)

/-- The path denoted by a string (used on the output of `git rev-parse`). -/
def pathFromString (s : String) : Path := splitSlashAux s.data []

/-- Rust `str::trim`: strip whitespace from both ends. -/
def trimString (s : String) : String :=
  String.mk (((s.data.dropWhile Char.isWhitespace).reverse.dropWhile Char.isWhitespace).reverse)

/-- The substring after the last `/` (the whole string when it has no `/`);
this is exactly Rust's `url.rsplit('/').next()`, which always yields a
(possibly empty) first item. -/
def trailingSegmentAux : List Char → List Char → List Char
  | [], acc => acc.reverse
  | c :: cs, acc =>
    if c = '/' then trailingSegmentAux cs [] else trailingSegmentAux cs (c :: acc)

/-- Trailing path segment of a URL string. -/
def trailingSegment (s : String) : String := String.mk (trailingSegmentAux s.data [])

/-- `issue_id.chars().all(|c| c.is_ascii_digit())`. -/
def allAsciiDigits (s : String) : Bool := s.data.all (fun c => c.isDigit)

/-- `args[0].starts_with('-')`. -/
def startsWithDash (s : String) : Bool :=
  match s.data with
  | [] => false
  | c :: _ => c = '-'

/-- Whether `pat` occurs as a contiguous substring of `s`
(Rust `str::contains`), via a structural scan. -/
def leadsWith : List Char → List Char → Bool
  | [], _ => true
  | _ :: _, [] => false
  | a :: as, b :: bs => a = b && leadsWith as bs

/-- Substring occurrence scan used by the beads error-text inspection. -/
def containsSubAux (pat : List Char) : List Char → Bool
  | [] => pat.isEmpty
  | c :: cs => leadsWith pat (c :: cs) || containsSubAux pat cs

/-- Rust `str::contains` on strings. -/
def containsSub (s pat : String) : Bool := containsSubAux pat.data s.data

/-- Rust `str.replace("'", "'\\''")` used to single-quote the agent prompt. -/
def escapeQuoteAux : List Char → List Char
  | [] => []
  | c :: cs =>
    if c = '\'' then '\'' :: '\\' :: '\'' :: '\'' :: escapeQuoteAux cs
    else c :: escapeQuoteAux cs

/-- Escape embedded single quotes for safe shell embedding. -/
def escapeSingleQuotes (s : String) : String := String.mk (escapeQuoteAux s.data)

/-- The two mutually exclusive issue-tracking backends. -/
inductive IssueBackend where
  | Beads
  | GitHub
  deriving DecidableEq

/-- External side effects / subprocess invocations a handler can attempt,
in the order attempted.  `warn` records a best-effort failure printed as a
warning (the handler continues). -/
inductive Effect where
  | queryCommonDir (root : Path)
  | queryBranch
  | checkExists (id : String)
  | createIssue (args : List String)
  | worktreeAdd (branch : String) (p : Path)
  | worktreeRemove (p : Path)
  | worktreeList
  | branchDelete (b : String)
  | gitPull
  | prMerge (id : String)
  | issueClose (id : String)
  | statusUpdate (id status : String)
  | direnvAllow (p : Path)
  | tmuxNew (name : String) (p : Path) (cmd : String)
  | tmuxAttach (name : String)
  | setCurrentDir (p : Path)
  | spawnShell (p : Path)
  | warn (msg : String)
  deriving DecidableEq

/-- The result of running a handler: the `Result` value of the Rust
function together with the ordered trace of attempted effects. -/
structure StepA (α : Type) where
  res : Except String α
  trace : List Effect

/-- Sequencing of handler steps: an error short-circuits (the Rust `?`),
and the attempted-effect traces accumulate in order. -/
def stepBind {α β : Type} (x : StepA α) (f : α → StepA β) : StepA β :=
  match x.res with
  | .error e => ⟨.error e, x.trace⟩
  | .ok v => ⟨(f v).res, x.trace ++ (f v).trace⟩

instance : Monad StepA where
  pure a := ⟨.ok a, []⟩
  bind := stepBind

/-- `bail!(msg)`. -/
def bail {α : Type} (msg : String) : StepA α := ⟨.error msg, []⟩

/-- A best-effort failure printed to stderr; the handler continues. -/
def warn (msg : String) : StepA Unit := ⟨.ok (), [.warn msg]⟩

/-- `.context(msg)?` on an `Option` (e.g. `find_git_root(..)` or
`file_name()`): `none` becomes a fatal error. -/
def ofOption {α : Type} (o : Option α) (msg : String) : StepA α :=
  match o with
  | none => ⟨.error msg, []⟩
  | some v => ⟨.ok v, []⟩

/-- Run a status-only external command: the effect is recorded as
attempted; `none` (could not execute) is fatal with the `.context`
message; otherwise the exit-status success flag is returned. -/
def runCmd (eff : Effect) (res : Option Bool) (ctxMsg : String) : StepA Bool :=
  match res with
  | none => ⟨.error ctxMsg, [eff]⟩
  | some b => ⟨.ok b, [eff]⟩

/-- Run an output-capturing external command (`.output()`): as `runCmd`
but also yields the captured text. -/
def runCmdOut (eff : Effect) (res : Option (Bool × String)) (ctxMsg : String) :
    StepA (Bool × String) :=
  match res with
  | none => ⟨.error ctxMsg, [eff]⟩
  | some r => ⟨.ok r, [eff]⟩

/-- Run an external command whose result the source discards entirely
(`let _ = Command::new(..).status()`). -/
def runCmdIgnored (eff : Effect) (_res : Option Bool) : StepA Unit :=
  ⟨.ok (), [eff]⟩

/-- `if let Err(e) = step { eprintln!(warning) }`: the inner step's trace
is kept, its error is downgraded to a warning, and execution continues. -/
def bestEffort (x : StepA Unit) (msgPre : String) : StepA Unit :=
  match x.res with
  | .ok _ => ⟨.ok (), x.trace⟩
  | .error e => ⟨.ok (), x.trace ++ [.warn (msgPre ++ e)]⟩

/-- `check_issue_exists_beads`: `bd show <id>` captured with stderr; a
"no beads database found" stderr is distinguished from plain not-found. -/
def check_issue_exists_beads (out : Option (Bool × String)) (issue_id : String) :
    StepA Unit := do
  let (success, stderr) ← runCmdOut (.checkExists issue_id) out
    "Failed to execute 'bd' command. Is beads installed?"
  if success then pure ()
  else if containsSub stderr "no beads database found" then
    bail "No beads database found. Run 'bd init' to initialize."
  else
    bail ("Issue '" ++ issue_id ++ "' not found.")

/-- `check_issue_exists_github`: `gh issue view <id> --json number,state`;
any non-zero exit is reported as not-found. -/
def check_issue_exists_github (out : Option (Bool × String)) (issue_id : String) :
    StepA Unit := do
  let (success, _stderr) ← runCmdOut (.checkExists issue_id) out
    "Failed to execute 'gh issue view'. Is gh CLI installed and authenticated?"
  if success then pure ()
  else bail ("GitHub issue '" ++ issue_id ++ "' not found.")

/-- Backend dispatch of the existence check. -/
def check_issue_exists (backend : IssueBackend) (out : Option (Bool × String))
    (issue_id : String) : StepA Unit :=
  match backend with
  | .Beads => check_issue_exists_beads out issue_id
  | .GitHub => check_issue_exists_github out issue_id

/-- `create_new_issue_beads`: `bd create <args> --silent`; the new id is
the trimmed stdout, which must be non-empty. -/
def create_new_issue_beads (out : Option (Bool × String)) (args : List String) :
    StepA String := do
  let (success, stdout) ← runCmdOut
    (.createIssue (["bd", "create"] ++ args ++ ["--silent"])) out
    "Failed to execute 'bd create'"
  if success then
    let issue_id := trimString stdout
    if issue_id.data.isEmpty then bail "'bd create' returned empty issue ID."
    else pure issue_id
  else bail "Failed to create issue."

/-- `create_new_issue_github`: the first non-flag argument becomes the
title and the remaining arguments a joined body (flag-style arguments are
passed through verbatim); the new id is parsed from the trailing path
segment of the URL printed on stdout, which must be non-empty and
all-ASCII-digits. -/
def create_new_issue_github (out : Option (Bool × String)) (args : List String) :
    StepA String := do
  match args with
  | [] => bail "Please provide a title for the issue."
  | a0 :: rest =>
    let gh_args :=
      if ¬ startsWithDash a0 then
        ["gh", "issue", "create", "--title", a0] ++
          (if rest.isEmpty then [] else ["--body", String.intercalate " " rest])
      else
        ["gh", "issue", "create"] ++ args
    let (success, stdout) ← runCmdOut (.createIssue gh_args) out
      "Failed to execute 'gh issue create'"
    if success then
      let url := trimString stdout
      let issue_id := trailingSegment url
      if issue_id.data.isEmpty ∨ ¬ allAsciiDigits issue_id then
        bail ("Failed to extract issue number from: " ++ url)
      else pure issue_id
    else bail "Failed to create GitHub issue."

/-- Backend dispatch of issue creation. -/
def create_new_issue (backend : IssueBackend) (out : Option (Bool × String))
    (args : List String) : StepA String :=
  match backend with
  | .Beads => create_new_issue_beads out args
  | .GitHub => create_new_issue_github out args

/-- `update_issue_status_beads`: `bd update <id> --status <status>`; a
non-zero exit is an error (made best-effort only at the call sites). -/
def update_issue_status_beads (out : Option (Bool × String))
    (issue_id status : String) : StepA Unit := do
  let (success, stderr) ← runCmdOut (.statusUpdate issue_id status) out
    "Failed to execute 'bd update'"
  if success then pure ()
  else bail ("bd update failed: " ++ trimString stderr)

/-- `update_issue_status_github`: status is encoded as the label
`status:<status>` added via `gh issue edit`; a non-zero exit is only a
warning inside the function itself (status labels are optional). -/
def update_issue_status_github (out : Option (Bool × String))
    (issue_id status : String) : StepA Unit := do
  let label := "status:" ++ status
  let (success, stderr) ← runCmdOut (.statusUpdate issue_id status) out
    "Failed to execute 'gh issue edit'"
  if success then pure ()
  else warn ("Warning: Could not add label '" ++ label ++ "': " ++ trimString stderr)

/-- Backend dispatch of the status update. -/
def update_issue_status (backend : IssueBackend) (out : Option (Bool × String))
    (issue_id status : String) : StepA Unit :=
  match backend with
  | .Beads => update_issue_status_beads out issue_id status
  | .GitHub => update_issue_status_github out issue_id status

/-- `close_issue_beads`: `bd close <id>`; non-zero exit is an error. -/
def close_issue_beads (out : Option (Bool × String)) (issue_id : String) :
    StepA Unit := do
  let (success, stderr) ← runCmdOut (.issueClose issue_id) out
    "Failed to execute 'bd close'"
  if success then pure ()
  else bail ("bd close failed: " ++ trimString stderr)

/-- `close_issue_github`: `gh issue close <id>`; non-zero exit is an error. -/
def close_issue_github (out : Option (Bool × String)) (issue_id : String) :
    StepA Unit := do
  let (success, stderr) ← runCmdOut (.issueClose issue_id) out
    "Failed to execute 'gh issue close'"
  if success then pure ()
  else bail ("gh issue close failed: " ++ trimString stderr)

/-- Backend dispatch of issue closing. -/
def close_issue (backend : IssueBackend) (out : Option (Bool × String))
    (issue_id : String) : StepA Unit :=
  match backend with
  | .Beads => close_issue_beads out issue_id
  | .GitHub => close_issue_github out issue_id

/-- `get_git_common_dir`: when `.git` at the located root is a regular
file the root is a linked checkout; `git rev-parse --path-format=absolute
--git-common-dir` is run there and the parent of the (trimmed) printed
path is taken as the primary repository root.  Note the source reads the
captured stdout without inspecting the exit status (`_success` in
`get_git_common_dir` below), so only a failure to execute the query is
fatal.  `parsedMainRepo` is the primary root parsed from the query's
stdout: the parent of the trimmed printed path (or that path itself when
it has no parent). -/
def parsedMainRepo (stdout : String) : Path :=
  let common_dir := pathFromString (trimString stdout)
  (parentDir common_dir).getD common_dir

/-- The locator step for a root whose `.git` marker is a regular file. -/
def get_git_common_dir (gitIsFile : Bool) (out : Option (Bool × String))
    (git_root : Path) : StepA (Path × Bool) :=
  if gitIsFile then do
    let (_success, stdout) ← runCmdOut (.queryCommonDir git_root) out
      "Failed to get git common dir"
    pure (parsedMainRepo stdout, true)
  else
    pure (git_root, false)

/-- `get_current_branch`: `git rev-parse --abbrev-ref HEAD`, trimmed
stdout; the exit status is not inspected. -/
def get_current_branch (out : Option (Bool × String)) : StepA String := do
  let (_success, stdout) ← runCmdOut .queryBranch out "Failed to get current branch"
  pure (trimString stdout)

/-- `spawn_shell`: spawn `$SHELL` (fallback `sh`) at the given path;
non-zero exit of the shell is an error. -/
def spawn_shell (res : Option Bool) (p : Path) : StepA Unit := do
  let success ← runCmd (.spawnShell p) res "Failed to spawn shell"
  if success then pure () else bail "Shell exited with non-zero status"

/-- `env::set_current_dir(main_repo)` with its `.context(..)?`. -/
def set_current_dir (ok : Bool) (p : Path) : StepA Unit :=
  if ok then ⟨.ok (), [.setCurrentDir p]⟩
  else ⟨.error "Failed to change directory to main repo", [.setCurrentDir p]⟩

/-- Outcomes of the external calls made by the session orchestrator. -/
structure SpawnEnv where
  currentExe : Option String
  newSessionRes : Option Bool
  attachRes : Option Bool

/-- The backend-dependent command named in the prompt for fetching the
issue details. -/
def issue_view_cmd_of (backend : IssueBackend) (issue_id : String) : String :=
  match backend with
  | .Beads => "bd show " ++ issue_id
  | .GitHub => "gh issue view " ++ issue_id

/-- The complete single-quoted gemini launch command built by
`spawn_gemini_tmux` (prompt, optional model flag, escaped quoting). -/
def build_gemini_cmd (current_exe issue_id : String) (model : Option String)
    (backend : IssueBackend) : String :=
  let done_cmd := current_exe ++ " done"
  let prompt := "You are working on issue " ++ issue_id ++ ". Please call '" ++
    issue_view_cmd_of backend issue_id ++
    "' to get the details of the issue. Your task is to fix this issue, commit the changes, push, and open a PR. When committing, please include a descriptive message and add 'Co-authored-by: Gemini <gemini@google.com>' to the commit message. When you are finished, run '" ++
    done_cmd ++ "' to close the session."
  "gemini --yolo --prompt-interactive" ++
    (match model with | some m => " --model " ++ m | none => "") ++
    " '" ++ escapeSingleQuotes prompt ++ "'"

/-- The complete single-quoted claude launch command built by
`spawn_claude_tmux` (prompt with the claude co-authorship trailer,
optional model flag, escaped quoting). -/
def build_claude_cmd (current_exe issue_id : String) (model : Option String)
    (backend : IssueBackend) : String :=
  let done_cmd := current_exe ++ " done"
  let prompt := "You are working on issue " ++ issue_id ++ ". Please call '" ++
    issue_view_cmd_of backend issue_id ++
    "' to get the details of the issue. Your task is to fix this issue, commit the changes, push, and open a PR. When committing, please include a descriptive message and add 'Co-authored-by: Claude <noreply@anthropic.com>' to the commit message. When you are finished, run '" ++
    done_cmd ++ "' to close the session."
  "claude --dangerously-skip-permissions" ++
    (match model with | some m => " --model " ++ m | none => "") ++
    " '" ++ escapeSingleQuotes prompt ++ "'"

/-- `spawn_gemini_tmux`: build the prompt and single shell command, start
a detached tmux session (fatal when this fails), then attach; the attach
exit status is discarded (`_attach` below), but a failure to execute the
attach command itself still propagates through its `.context(..)?`. -/
def spawn_gemini_tmux (se : SpawnEnv) (path : Path) (issue_id : String)
    (model : Option String) (session_name : String) (backend : IssueBackend) :
    StepA Unit := do
  let current_exe := se.currentExe.getD "fuzemill"
  let gemini_cmd := build_gemini_cmd current_exe issue_id model backend
  let success ← runCmd (.tmuxNew session_name path gemini_cmd) se.newSessionRes
    "Failed to create tmux session"
  if success then pure () else bail "Failed to create tmux session. Is tmux installed?"
  let _attach ← runCmd (.tmuxAttach session_name) se.attachRes
    "Failed to attach to tmux session"
  pure ()

/-- `spawn_claude_tmux`: as `spawn_gemini_tmux` with the claude launcher
and its co-authorship trailer. -/
def spawn_claude_tmux (se : SpawnEnv) (path : Path) (issue_id : String)
    (model : Option String) (session_name : String) (backend : IssueBackend) :
    StepA Unit := do
  let current_exe := se.currentExe.getD "fuzemill"
  let claude_cmd := build_claude_cmd current_exe issue_id model backend
  let success ← runCmd (.tmuxNew session_name path claude_cmd) se.newSessionRes
    "Failed to create tmux session"
  if success then pure () else bail "Failed to create tmux session. Is tmux installed?"
  let _attach ← runCmd (.tmuxAttach session_name) se.attachRes
    "Failed to attach to tmux session"
  pure ()

/-- Outcomes of the external calls made by `handle_merge`.  `findRoot`
is the combined result of `env::current_dir` and `find_git_root`
(upward filesystem walk, no side effects). -/
structure MergeEnv where
  findRoot : Option Path
  gitIsFile : Bool
  commonDirOut : Option (Bool × String)
  pathExists : Path → Bool
  removeRes : Option Bool
  prMergeRes : Option Bool
  pullRes : Option Bool
  closeOut : Option (Bool × String)

/-- `handle_merge`: refuse to run from a linked checkout; otherwise
best-effort remove the derived sibling worktree, merge the PR via `gh`
(fatal on failure), `git pull` (fatal on failure), then best-effort close
the issue. -/
def handle_merge (env : MergeEnv) (backend : IssueBackend) (issue_id : String) :
    StepA Unit := do
  let git_root ← ofOption env.findRoot "Not in a git repository"
  let (_main_repo, is_worktree) ← get_git_common_dir env.gitIsFile env.commonDirOut git_root
  if is_worktree then
    bail "'merge' must be run from the main repository, not a worktree."
  else pure ()
  let repo_dirname := git_root.getLast?.getD "unknown"
  let worktree_dir_name := repo_dirname ++ "-" ++ issue_id
  let worktree_path := ((parentDir git_root).getD (pathFromString ".")) ++ [worktree_dir_name]
  if env.pathExists worktree_path then do
    let success ← runCmd (.worktreeRemove worktree_path) env.removeRes
      "Failed to execute git worktree remove"
    if success then pure ()
    else warn "Warning: Failed to remove worktree. 'gh pr merge' might fail to delete local branch."
  else pure ()
  let success ← runCmd (.prMerge issue_id) env.prMergeRes "Failed to execute 'gh pr merge'"
  if success then pure ()
  else bail ("Failed to merge PR. Ensure 'gh' is installed and a PR exists for branch '" ++
    issue_id ++ "'.")
  let pullSuccess ← runCmd .gitPull env.pullRes "Failed to execute 'git pull'"
  if pullSuccess then pure () else bail "Failed to pull to main."
  bestEffort (close_issue backend env.closeOut issue_id) "Warning: Failed to close issue: "

/-- Outcomes of the external calls made by `handle_start`. -/
structure StartEnv where
  backend : IssueBackend
  findRoot : Option Path
  existsOut : Option (Bool × String)
  createOut : Option (Bool × String)
  gitIsFile : Bool
  commonDirOut : Option (Bool × String)
  pathExists : Path → Bool
  addRes : Option Bool
  envrcExists : Bool
  direnvRes : Option Bool
  spawnEnv : SpawnEnv
  cleanupRes : Option Bool

/-- `handle_start`: resolve or create the issue id, derive the sibling
worktree path from the primary name and the id, create the worktree if
absent (reuse it otherwise), best-effort direnv allow, best-effort status
to `hooked`, launch the agent session, best-effort status to
`in_progress`, then remove the worktree (warning on non-zero exit).  The
two status-update outcomes are passed separately so theorems can vary
them independently. -/
def handle_start (env : StartEnv) (updHookedOut updInProgressOut : Option (Bool × String))
    (id : Option String) (model : Option String) (agent : String)
    (create_args : List String) : StepA Unit := do
  let git_root ← ofOption env.findRoot "Not in a git repository"
  let issue_id ←
    match id with
    | some provided_id => do
        check_issue_exists env.backend env.existsOut provided_id
        pure provided_id
    | none =>
        if ¬ create_args.isEmpty then
          create_new_issue env.backend env.createOut create_args
        else
          bail "Please provide an issue ID via --id or arguments to create a new issue."
  let (main_repo_path, is_worktree) ← get_git_common_dir env.gitIsFile env.commonDirOut git_root
  let repo_path_for_name := if is_worktree then main_repo_path else git_root
  let repo_name ← ofOption repo_path_for_name.getLast? "Invalid repository path"
  let base_parent ← ofOption (parentDir git_root) "Cannot find parent of git root"
  let new_dir_name := repo_name ++ "-" ++ issue_id
  let new_worktree_path := base_parent ++ [new_dir_name]
  if env.pathExists new_worktree_path then
    pure ()
  else do
    let success ← runCmd (.worktreeAdd issue_id new_worktree_path) env.addRes
      "Failed to execute git worktree add"
    if success then pure () else bail "git worktree add failed"
  if env.envrcExists then
    runCmdIgnored (.direnvAllow new_worktree_path) env.direnvRes
  else pure ()
  bestEffort (update_issue_status env.backend updHookedOut issue_id "hooked")
    "Warning: Failed to set issue status to 'hooked': "
  let session_name := "fuzemill-" ++ issue_id
  match agent with
  | "gemini" => spawn_gemini_tmux env.spawnEnv new_worktree_path issue_id model session_name env.backend
  | "claude" => spawn_claude_tmux env.spawnEnv new_worktree_path issue_id model session_name env.backend
  | _ => bail ("Unknown agent '" ++ agent ++ "'. Use 'claude' or 'gemini'.")
  bestEffort (update_issue_status env.backend updInProgressOut issue_id "in_progress")
    "Warning: Failed to set issue status to 'in_progress': "
  let cleanupSuccess ← runCmd (.worktreeRemove new_worktree_path) env.cleanupRes
    "Failed to execute git worktree remove"
  if cleanupSuccess then pure ()
  else warn ("Warning: Failed to remove worktree at " ++ displayPath new_worktree_path)

/-- Outcomes of the external calls made by `handle_unstart`. -/
structure UnstartEnv where
  findRoot : Option Path
  gitIsFile : Bool
  commonDirOut : Option (Bool × String)
  branchOut : Option (Bool × String)
  setDirOk : Bool
  pathExists : Path → Bool
  removeRes : Option Bool
  branchDelRes : Option Bool
  shellRes : Option Bool

/-- `handle_unstart`: when invoked from inside the linked checkout whose
branch is the issue id, the target is the caller's own checkout and the
working directory is first moved to the primary root; otherwise the
target is re-derived as a sibling of the primary root, failing when that
path does not exist.  Removal failure is fatal; branch deletion failure
is only a warning; when the caller's own checkout was removed an
interactive subshell is spawned at the primary root. -/
def handle_unstart (env : UnstartEnv) (issue_id : String) : StepA Unit := do
  let git_root ← ofOption env.findRoot "Not in a git repository"
  let (main_repo_path, is_worktree) ← get_git_common_dir env.gitIsFile env.commonDirOut git_root
  let current_branch ← get_current_branch env.branchOut
  let branch_to_remove := issue_id
  let worktree_to_remove ←
    if is_worktree && current_branch = issue_id then do
      set_current_dir env.setDirOk main_repo_path
      pure git_root
    else
      let repo_dirname := main_repo_path.getLast?.getD "unknown"
      let dir_name := repo_dirname ++ "-" ++ issue_id
      match parentDir main_repo_path with
      | none => bail "panic: called Option::unwrap on a None value"
      | some par =>
        let probable_path := par ++ [dir_name]
        if env.pathExists probable_path then
          pure probable_path
        else
          bail ("Could not find worktree at expected path: " ++ displayPath probable_path)
  let success ← runCmd (.worktreeRemove worktree_to_remove) env.removeRes
    "Failed to execute git worktree remove"
  if success then pure () else bail "git worktree remove failed"
  let delSuccess ← runCmd (.branchDelete branch_to_remove) env.branchDelRes
    "Failed to delete branch"
  if delSuccess then pure ()
  else warn "Warning: Failed to delete branch (maybe it was already deleted or different name?)"
  if is_worktree && current_branch = issue_id then
    spawn_shell env.shellRes main_repo_path
  else pure ()

/-- The side-checkout path exactly as the specification words it: the
primary root's parent joined with `<primary-root-name>-<issue-id>`
(stated for comparison with the path the handlers actually derive). -/
def spec_side_checkout_path (primaryRoot : Path) (issue_id : String) : Path :=
  (parentDir primaryRoot).getD [] ++ [primaryRoot.getLast?.getD "" ++ "-" ++ issue_id]

/-- Whether an effect is an issue-creation invocation (used to state
which resolution path `start` selected). -/
def Effect.isCreate : Effect → Bool
  | .createIssue _ => true
  | _ => false

section StepLemmas

variable {α β : Type}

@[simp] theorem res_mk (r : Except String α) (t : List Effect) : (StepA.mk r t).res = r := rfl

@[simp] theorem trace_mk (r : Except String α) (t : List Effect) : (StepA.mk r t).trace = t := rfl

@[simp] theorem bind_eq_stepBind (x : StepA α) (f : α → StepA β) : x >>= f = stepBind x f := rfl

@[simp] theorem stepBind_res (x : StepA α) (f : α → StepA β) :
    (stepBind x f).res = match x.res with | .error e => .error e | .ok v => (f v).res := by
  cases hx : x.res <;> simp [stepBind, hx]

@[simp] theorem stepBind_trace (x : StepA α) (f : α → StepA β) :
    (stepBind x f).trace =
      match x.res with | .error _ => x.trace | .ok v => x.trace ++ (f v).trace := by
  cases hx : x.res <;> simp [stepBind, hx]

@[simp] theorem res_pure (a : α) : (pure a : StepA α).res = .ok a := rfl

@[simp] theorem trace_pure (a : α) : (pure a : StepA α).trace = [] := rfl

@[simp] theorem res_bail (m : String) : (bail m : StepA α).res = .error m := rfl

@[simp] theorem trace_bail (m : String) : (bail m : StepA α).trace = [] := rfl

@[simp] theorem res_warn (m : String) : (warn m).res = .ok () := rfl

@[simp] theorem trace_warn (m : String) : (warn m).trace = [.warn m] := rfl

@[simp] theorem ofOption_none (m : String) : (ofOption (none : Option α) m) = ⟨.error m, []⟩ := rfl

@[simp] theorem ofOption_some (v : α) (m : String) : (ofOption (some v) m) = ⟨.ok v, []⟩ := rfl

@[simp] theorem runCmd_none (eff : Effect) (m : String) :
    runCmd eff none m = ⟨.error m, [eff]⟩ := rfl

@[simp] theorem runCmd_some (eff : Effect) (b : Bool) (m : String) :
    runCmd eff (some b) m = ⟨.ok b, [eff]⟩ := rfl

@[simp] theorem runCmdOut_none (eff : Effect) (m : String) :
    runCmdOut eff none m = ⟨.error m, [eff]⟩ := rfl

@[simp] theorem runCmdOut_some (eff : Effect) (r : Bool × String) (m : String) :
    runCmdOut eff (some r) m = ⟨.ok r, [eff]⟩ := rfl

@[simp] theorem runCmdIgnored_eq (eff : Effect) (r : Option Bool) :
    runCmdIgnored eff r = ⟨.ok (), [eff]⟩ := rfl

@[simp] theorem runCmd_trace (eff : Effect) (r : Option Bool) (m : String) :
    (runCmd eff r m).trace = [eff] := by
  cases r <;> rfl

@[simp] theorem runCmdOut_trace (eff : Effect) (r : Option (Bool × String)) (m : String) :
    (runCmdOut eff r m).trace = [eff] := by
  cases r <;> rfl

@[simp] theorem bestEffort_res (x : StepA Unit) (m : String) : (bestEffort x m).res = .ok () := by
  cases hx : x.res <;> simp [bestEffort, hx]

@[simp] theorem bestEffort_trace (x : StepA Unit) (m : String) :
    (bestEffort x m).trace =
      match x.res with
      | .ok _ => x.trace
      | .error e => x.trace ++ [.warn (m ++ e)] := by
  cases hx : x.res <;> simp [bestEffort, hx]

@[simp] theorem stepBind_pure (v : α) (f : α → StepA β) : stepBind (pure v) f = f v := by
  cases hf : f v with
  | mk r t => simp [stepBind, hf]

theorem stepBind_res_congr (x : StepA α) (f g : α → StepA β)
    (h : ∀ v, (f v).res = (g v).res) : (stepBind x f).res = (stepBind x g).res := by
  cases hx : x.res <;> simp [stepBind, hx, h]

theorem stepBind_bestEffort_res_congr (x x' : StepA Unit) (m m' : String)
    (f g : Unit → StepA β) (h : (f ()).res = (g ()).res) :
    (stepBind (bestEffort x m) f).res = (stepBind (bestEffort x' m') g).res := by
  simp [h]

end StepLemmas

/-- C2: for every invocation of `merge` whose located root is a linked
checkout (the version-control marker is a regular file, so the common-dir
query runs and classifies the root as a worktree), the command fails with
the descriptive error and its effect trace contains no worktree removal,
no PR-merge call, no pull and no issue close — only the read-only
common-dir query was attempted. -/
theorem C2_merge_from_linked_checkout_short_circuits
    (env : MergeEnv) (backend : IssueBackend) (issue_id : String) (r : Path)
    (b : Bool) (s : String)
    (hroot : env.findRoot = some r) (hfile : env.gitIsFile = true)
    (hout : env.commonDirOut = some (b, s)) :
    (handle_merge env backend issue_id).res =
      .error "'merge' must be run from the main repository, not a worktree." ∧
    (handle_merge env backend issue_id).trace = [.queryCommonDir r] := by
  simp [handle_merge, get_git_common_dir, hroot, hfile, hout]

/-- Witness for C2 at a concrete linked-checkout environment. -/
theorem C2_merge_witness :
    (handle_merge
      ⟨some ["w", "acme-7"], true, some (true, "/w/acme/.git"), fun _ => false,
        some true, some true, some true, some (true, "")⟩ .GitHub "7").res =
      .error "'merge' must be run from the main repository, not a worktree." ∧
    (handle_merge
      ⟨some ["w", "acme-7"], true, some (true, "/w/acme/.git"), fun _ => false,
        some true, some true, some true, some (true, "")⟩ .GitHub "7").trace =
      [.queryCommonDir ["w", "acme-7"]] :=
  C2_merge_from_linked_checkout_short_circuits _ .GitHub "7" ["w", "acme-7"] true
    "/w/acme/.git" rfl rfl rfl

/-- C4: the workspace locator at a linked checkout (marker is a regular
file) is fatal only when the common-dir query cannot be executed at all;
when the query runs but exits non-zero with empty output, the code does
not fail — it proceeds with a primary root parsed from the empty output
(the empty path) and still classifies the root as a linked checkout,
contradicting the claim that every failure of the query is fatal. -/
theorem C4_common_dir_query_nonzero_exit_not_fatal :
    (get_git_common_dir true none ["w", "acme-7"]).res =
      .error "Failed to get git common dir" ∧
    get_git_common_dir true (some (false, "")) ["w", "acme-7"] =
      ⟨.ok (([] : Path), true), [.queryCommonDir ["w", "acme-7"]]⟩ := by
  constructor
  · rfl
  · rfl

/-- C5: for every creation-output string accepted from a successful
`gh issue create`, the GitHub-backend create operation returns exactly the
trailing path segment of the trimmed URL, succeeding precisely when that
segment is non-empty and all ASCII digits, and failing with the parse
error otherwise. -/
theorem C5_github_create_parses_trailing_numeric_segment
    (stdout : String) (args : List String) (a0 : String) (rest : List String)
    (hargs : args = a0 :: rest) :
    ((trailingSegment (trimString stdout)).data ≠ [] →
      allAsciiDigits (trailingSegment (trimString stdout)) = true →
      (create_new_issue_github (some (true, stdout)) args).res =
        .ok (trailingSegment (trimString stdout))) ∧
    ((trailingSegment (trimString stdout)).data = [] ∨
        allAsciiDigits (trailingSegment (trimString stdout)) = false →
      (create_new_issue_github (some (true, stdout)) args).res =
        .error ("Failed to extract issue number from: " ++ trimString stdout)) := by
  subst hargs
  constructor
  · intro h1 h2
    simp [create_new_issue_github, h1, h2]
  · intro h
    rcases h with h | h <;> simp [create_new_issue_github, h]

/-- Witness for C5: the URL of the specification's example yields id
"42", and a URL with a non-numeric trailing segment is a parse error. -/
theorem C5_github_create_witness :
    (create_new_issue_github (some (true, "https://host/owner/repo/issues/42"))
      ["t"]).res = .ok "42" ∧
    (create_new_issue_github (some (true, "https://host/owner/repo/issues/abc"))
      ["t"]).res =
      .error "Failed to extract issue number from: https://host/owner/repo/issues/abc" :=
  ⟨(C5_github_create_parses_trailing_numeric_segment
      "https://host/owner/repo/issues/42" _ "t" [] rfl).1 (by decide) (by decide),
   (C5_github_create_parses_trailing_numeric_segment
      "https://host/owner/repo/issues/abc" _ "t" [] rfl).2 (by decide)⟩

/-- C9: supplying neither an issue id nor creation arguments makes
`start` fail with the user error before any external effect is attempted
(empty trace); supplying an id makes the existence check the first
attempted effect; supplying creation arguments (and no id) makes issue
creation the first attempted effect. -/
theorem C9_start_requires_id_or_create_args
    (env : StartEnv) (uh ui : Option (Bool × String)) (model : Option String)
    (agent : String) (r : Path) (hroot : env.findRoot = some r) :
    ((handle_start env uh ui none model agent []).res =
        .error "Please provide an issue ID via --id or arguments to create a new issue." ∧
      (handle_start env uh ui none model agent []).trace = []) ∧
    (∀ (i : String) (ca : List String),
      (handle_start env uh ui (some i) model agent ca).trace.head? =
        some (.checkExists i)) ∧
    (∀ (a : String) (args : List String),
      ((handle_start env uh ui none model agent (a :: args)).trace.head?.map
        Effect.isCreate) = some true) := by
  refine ⟨?_, ?_, ?_⟩
  · simp [handle_start, hroot]
  · intro i ca
    rcases hb : env.backend <;>
      rcases hx : env.existsOut with _ | ⟨sb, ss⟩ <;> (try cases sb) <;>
        simp [handle_start, check_issue_exists, check_issue_exists_beads,
          check_issue_exists_github, hroot, hb, hx] <;>
        (try (split <;> simp))
  · intro a args
    rcases hb : env.backend <;>
      rcases hx : env.createOut with _ | ⟨sb, ss⟩ <;> (try cases sb) <;>
        simp [handle_start, create_new_issue, create_new_issue_beads,
          create_new_issue_github, Effect.isCreate, hroot, hb, hx] <;>
        (try (split <;> simp))

/-- Witness for C9 at a concrete environment located at /w/acme. -/
theorem C9_start_witness :
    (handle_start
      ⟨.GitHub, some ["w", "acme"], some (true, ""), some (true, ""), false,
        none, fun _ => false, some true, false, none, ⟨none, some true, some true⟩,
        some true⟩ none none none none "claude" []).res =
      .error "Please provide an issue ID via --id or arguments to create a new issue." ∧
    (handle_start
      ⟨.GitHub, some ["w", "acme"], some (true, ""), some (true, ""), false,
        none, fun _ => false, some true, false, none, ⟨none, some true, some true⟩,
        some true⟩ none none none none "claude" []).trace = [] :=
  (C9_start_requires_id_or_create_args _ none none none "claude" ["w", "acme"] rfl).1

set_option maxHeartbeats 2000000 in
/-- C3: for both backends and any issue id and status, the outcomes of
the two best-effort status updates inside `start` (to `hooked` and to
`in_progress`) never change the overall success/failure result of
`handle_start`: varying both update outcomes arbitrarily leaves the
returned result unchanged. -/
theorem C3_update_status_failures_never_change_start_outcome
    (env : StartEnv) (uh uh' ui ui' : Option (Bool × String))
    (id model : Option String) (agent : String) (ca : List String) :
    (handle_start env uh ui id model agent ca).res =
    (handle_start env uh' ui' id model agent ca).res := by
  unfold handle_start
  simp only [bind_eq_stepBind, stepBind_pure]
  cases ca with
  | nil =>
    repeat' (first
      | (with_reducible rfl)
      | (apply stepBind_bestEffort_res_congr)
      | (apply stepBind_res_congr; intro x)
      | split
      | simp)
  | cons a args =>
    repeat' (first
      | (with_reducible rfl)
      | (apply stepBind_bestEffort_res_congr)
      | (apply stepBind_res_congr; intro x)
      | split
      | simp)

/-- Witness for C3: with the GitHub backend, both updates failing to
execute at all versus both succeeding yields the same (successful)
start outcome. -/
theorem C3_update_status_witness :
    (handle_start
      ⟨.GitHub, some ["w", "acme"], some (true, ""), some (true, ""), false,
        none, fun _ => false, some true, false, none, ⟨none, some true, some true⟩,
        some true⟩ none none (some "7") none "claude" []).res =
    (handle_start
      ⟨.GitHub, some ["w", "acme"], some (true, ""), some (true, ""), false,
        none, fun _ => false, some true, false, none, ⟨none, some true, some true⟩,
        some true⟩ (some (true, "")) (some (true, "")) (some "7") none "claude" []).res :=
  C3_update_status_failures_never_change_start_outcome _ none (some (true, ""))
    none (some (true, "")) (some "7") none "claude" []

/-- C10: when `start` is invoked with an agent other than "claude" or
"gemini" (and issue resolution and provisioning succeed), it fails with
the unknown-agent error only after the side checkout has been created
(when absent) and the best-effort status update to 'hooked' has been
attempted; on this error path no worktree removal runs and no
'in_progress' status update is attempted, so the side checkout and its
branch are left in place. -/
theorem C10_unknown_agent_fails_after_provisioning
    (env : StartEnv) (uh ui : Option (Bool × String)) (model : Option String)
    (agent : String) (i s nm : String) (r bp : Path)
    (hag1 : agent ≠ "gemini") (hag2 : agent ≠ "claude")
    (hroot : env.findRoot = some r) (hex : env.existsOut = some (true, s))
    (hfile : env.gitIsFile = false) (hnm : r.getLast? = some nm)
    (hbp : parentDir r = some bp)
    (hens : env.pathExists (bp ++ [nm ++ "-" ++ i]) = true ∨
      (env.pathExists (bp ++ [nm ++ "-" ++ i]) = false ∧ env.addRes = some true)) :
    (handle_start env uh ui (some i) model agent []).res =
      .error ("Unknown agent '" ++ agent ++ "'. Use 'claude' or 'gemini'.") ∧
    .statusUpdate i "hooked" ∈ (handle_start env uh ui (some i) model agent []).trace ∧
    (env.pathExists (bp ++ [nm ++ "-" ++ i]) = false →
      .worktreeAdd i (bp ++ [nm ++ "-" ++ i]) ∈
        (handle_start env uh ui (some i) model agent []).trace) ∧
    (∀ p, .worktreeRemove p ∉ (handle_start env uh ui (some i) model agent []).trace) ∧
    .statusUpdate i "in_progress" ∉ (handle_start env uh ui (some i) model agent []).trace := by
  rcases hb : env.backend <;>
    rcases hens with hpe | ⟨hpe, hadd⟩ <;>
      rcases huh : uh with _ | ⟨ub, us⟩ <;> (try cases ub) <;>
        cases henv : env.envrcExists <;>
          simp [handle_start, check_issue_exists, check_issue_exists_beads,
            check_issue_exists_github, get_git_common_dir, update_issue_status,
            update_issue_status_beads, update_issue_status_github,
            hroot, hex, hfile, hnm, hbp, hpe, hb, henv, hag1, hag2] <;>
          (try simp [hadd])

/-- Witness for C10 at a concrete environment: agent "cursor",
repository acme at /w/acme, issue 7, worktree created now. -/
theorem C10_unknown_agent_witness :
    (handle_start
      ⟨.GitHub, some ["w", "acme"], some (true, ""), some (true, ""), false,
        none, fun _ => false, some true, false, none, ⟨none, some true, some true⟩,
        some true⟩ none none (some "7") none "cursor" []).res =
      .error "Unknown agent 'cursor'. Use 'claude' or 'gemini'." ∧
    .statusUpdate "7" "hooked" ∈ (handle_start
      ⟨.GitHub, some ["w", "acme"], some (true, ""), some (true, ""), false,
        none, fun _ => false, some true, false, none, ⟨none, some true, some true⟩,
        some true⟩ none none (some "7") none "cursor" []).trace ∧
    (∀ p, .worktreeRemove p ∉ (handle_start
      ⟨.GitHub, some ["w", "acme"], some (true, ""), some (true, ""), false,
        none, fun _ => false, some true, false, none, ⟨none, some true, some true⟩,
        some true⟩ none none (some "7") none "cursor" []).trace) :=
  have h := C10_unknown_agent_fails_after_provisioning
    ⟨.GitHub, some ["w", "acme"], some (true, ""), some (true, ""), false,
      none, fun _ => false, some true, false, none, ⟨none, some true, some true⟩,
      some true⟩ none none none "cursor" "7" "" "acme" ["w", "acme"] ["w"]
    (by decide) (by decide) rfl rfl rfl rfl rfl (Or.inr ⟨rfl, rfl⟩)
  ⟨h.1, h.2.1, h.2.2.2.1⟩

/-- C7 counterexample: a failure to execute the tmux attach command at
all (the `Err` arm of `.status()`, e.g. the tmux binary disappearing) is
propagated by the `?` on its `.context(..)` — `start` returns that error
and the post-session steps (status to 'in_progress', worktree removal)
do not run, refuting the claim that ANY failure of the attach step is
non-fatal. -/
theorem C7_attach_exec_failure_counterexample :
    (handle_start
      ⟨.GitHub, some ["w", "acme"], some (true, ""), some (true, ""), false,
        none, fun _ => false, some true, false, none, ⟨none, some true, none⟩,
        some true⟩ (some (true, "")) (some (true, "")) (some "7") none "claude" []).res =
      .error "Failed to attach to tmux session" ∧
    .statusUpdate "7" "in_progress" ∉ (handle_start
      ⟨.GitHub, some ["w", "acme"], some (true, ""), some (true, ""), false,
        none, fun _ => false, some true, false, none, ⟨none, some true, none⟩,
        some true⟩ (some (true, "")) (some (true, "")) (some "7") none "claude" []).trace ∧
    (∀ p, .worktreeRemove p ∉ (handle_start
      ⟨.GitHub, some ["w", "acme"], some (true, ""), some (true, ""), false,
        none, fun _ => false, some true, false, none, ⟨none, some true, none⟩,
        some true⟩ (some (true, "")) (some (true, "")) (some "7") none "claude" []).trace) := by
  refine ⟨by rfl, by simp [handle_start, check_issue_exists, check_issue_exists_github,
    get_git_common_dir, update_issue_status, update_issue_status_github,
    spawn_claude_tmux, parentDir], ?_⟩
  intro p
  simp [handle_start, check_issue_exists, check_issue_exists_github,
    get_git_common_dir, update_issue_status, update_issue_status_github,
    spawn_claude_tmux, parentDir]

set_option maxHeartbeats 3200000 in
/-- C7 as amended: a non-zero exit status of the attach step (the session
ending or the user detaching) is not fatal — the session-launch
operation returns success for both agents — and under it the post-session
steps of `start` (the best-effort 'in_progress' update and the worktree
removal) are still attempted. -/
theorem C7_amended_attach_nonzero_exit_not_fatal :
    (∀ (ce : Option String) (b : Bool) (p : Path) (i : String)
        (model : Option String) (sn : String) (bk : IssueBackend),
      (spawn_claude_tmux ⟨ce, some true, some b⟩ p i model sn bk).res = .ok () ∧
      (spawn_gemini_tmux ⟨ce, some true, some b⟩ p i model sn bk).res = .ok ()) ∧
    (∀ (env : StartEnv) (uh ui : Option (Bool × String)) (model : Option String)
        (i s nm : String) (r bp : Path),
      env.findRoot = some r → env.existsOut = some (true, s) →
      env.gitIsFile = false → r.getLast? = some nm → parentDir r = some bp →
      env.pathExists (bp ++ [nm ++ "-" ++ i]) = false → env.addRes = some true →
      env.spawnEnv = ⟨none, some true, some false⟩ →
      .statusUpdate i "in_progress" ∈
        (handle_start env uh ui (some i) model "claude" []).trace ∧
      .worktreeRemove (bp ++ [nm ++ "-" ++ i]) ∈
        (handle_start env uh ui (some i) model "claude" []).trace) := by
  constructor
  · intro ce b p i model sn bk
    exact ⟨by simp [spawn_claude_tmux], by simp [spawn_gemini_tmux]⟩
  · intro env uh ui model i s nm r bp hroot hex hfile hnm hbp hpe hadd hspawn
    rcases hb : env.backend <;>
      rcases huh : uh with _ | ⟨ub, us⟩ <;> (try cases ub) <;>
        rcases hui : ui with _ | ⟨vb, vs⟩ <;> (try cases vb) <;>
          cases henv : env.envrcExists <;>
            simp [handle_start, check_issue_exists, check_issue_exists_beads,
              check_issue_exists_github, get_git_common_dir, update_issue_status,
              update_issue_status_beads, update_issue_status_github,
              spawn_claude_tmux, spawn_gemini_tmux,
              hroot, hex, hfile, hnm, hbp, hpe, hadd, hspawn, hb, henv] <;>
            (try (split <;> simp))

/-- Witness for the amended C7: concrete non-zero attach exit, post
steps present in the trace and spawn returning success. -/
theorem C7_amended_witness :
    (spawn_claude_tmux ⟨none, some true, some false⟩ ["w", "acme-7"] "7" none
      "fuzemill-7" .GitHub).res = .ok () ∧
    .statusUpdate "7" "in_progress" ∈ (handle_start
      ⟨.GitHub, some ["w", "acme"], some (true, ""), some (true, ""), false,
        none, fun _ => false, some true, false, none, ⟨none, some true, some false⟩,
        some true⟩ none none (some "7") none "claude" []).trace :=
  ⟨(C7_amended_attach_nonzero_exit_not_fatal.1 none false ["w", "acme-7"] "7" none
      "fuzemill-7" .GitHub).1,
   (C7_amended_attach_nonzero_exit_not_fatal.2
      ⟨.GitHub, some ["w", "acme"], some (true, ""), some (true, ""), false,
        none, fun _ => false, some true, false, none, ⟨none, some true, some false⟩,
        some true⟩ none none none "7" "" "acme" ["w", "acme"] ["w"]
      rfl rfl rfl rfl rfl rfl rfl rfl).1⟩

/-- C1 counterexample: the side-checkout path `start` derives is NOT a
function of the primary-root name and the issue id alone, and is not the
primary root's parent joined with `<primary-root-name>-<issue-id>`: the
source joins the INVOKING checkout root's parent (`git_root.parent()`)
with that name.  Two invocations with the same primary root `/w/acme`
and the same issue id `"7"` — one from the primary checkout, one from a
linked checkout at `/w/nested/acme-extra` — derive `/w/acme-7` and
`/w/nested/acme-7` respectively, and the latter differs from the path
the claim specifies. -/
theorem C1_side_checkout_path_counterexample :
    .worktreeAdd "7" ["w", "acme-7"] ∈ (handle_start
      ⟨.GitHub, some ["w", "acme"], some (true, ""), some (true, ""), false,
        none, fun _ => false, some true, false, none, ⟨none, some true, some true⟩,
        some true⟩ none none (some "7") none "claude" []).trace ∧
    .worktreeAdd "7" ["w", "nested", "acme-7"] ∈ (handle_start
      ⟨.GitHub, some ["w", "nested", "acme-extra"], some (true, ""), some (true, ""),
        true, some (true, "/w/acme/.git"), fun _ => false, some true, false, none,
        ⟨none, some true, some true⟩, some true⟩ none none (some "7") none "claude" []).trace ∧
    parsedMainRepo "/w/acme/.git" = ["w", "acme"] ∧
    spec_side_checkout_path ["w", "acme"] "7" = ["w", "acme-7"] ∧
    (["w", "nested", "acme-7"] : Path) ≠ spec_side_checkout_path ["w", "acme"] "7" := by
  refine ⟨?_, ?_, by decide, by decide, by decide⟩
  · simp [handle_start, check_issue_exists, check_issue_exists_github,
      get_git_common_dir, update_issue_status, update_issue_status_github,
      spawn_claude_tmux, parentDir]
  · simp [handle_start, check_issue_exists, check_issue_exists_github,
      get_git_common_dir, update_issue_status, update_issue_status_github,
      spawn_claude_tmux, parentDir, parsedMainRepo, pathFromString, trimString,
      splitSlashAux]

set_option maxHeartbeats 3200000 in
/-- C1 as amended: in every `start` invocation the derived side-checkout
path is the INVOKING checkout root's parent joined with
`<primary-root-name>-<issue-id>`, the created branch is named by the
issue id, and the session is named `fuzemill-<issue-id>`.  Part one:
when `start` runs in the primary checkout (the usual case and the
specification's scenario) the invoking root IS the primary root, so the
path agrees with the specification's formula `spec_side_checkout_path`.
Part two: when `start` runs in a linked checkout, the name still comes
from the primary root (the parent of the parsed common dir) but the
parent is the invoking root's.  Being pure derivations, re-deriving with
the same inputs yields identical results. -/
theorem C1_amended_derived_names :
    (∀ (env : StartEnv) (uh ui : Option (Bool × String)) (model : Option String)
        (i s nm : String) (r bp : Path),
      env.findRoot = some r → env.gitIsFile = false →
      env.existsOut = some (true, s) →
      r.getLast? = some nm → parentDir r = some bp →
      env.pathExists (bp ++ [nm ++ "-" ++ i]) = false → env.addRes = some true →
      env.spawnEnv.newSessionRes = some true →
      spec_side_checkout_path r i = bp ++ [nm ++ "-" ++ i] ∧
      .worktreeAdd i (bp ++ [nm ++ "-" ++ i]) ∈
        (handle_start env uh ui (some i) model "claude" []).trace ∧
      .tmuxAttach ("fuzemill-" ++ i) ∈
        (handle_start env uh ui (some i) model "claude" []).trace) ∧
    (∀ (env : StartEnv) (uh ui : Option (Bool × String)) (model : Option String)
        (i s nm : String) (r bp : Path) (cb : Bool) (cs : String),
      env.findRoot = some r → env.gitIsFile = true →
      env.commonDirOut = some (cb, cs) → env.existsOut = some (true, s) →
      (parsedMainRepo cs).getLast? = some nm → parentDir r = some bp →
      env.pathExists (bp ++ [nm ++ "-" ++ i]) = false → env.addRes = some true →
      env.spawnEnv.newSessionRes = some true →
      .worktreeAdd i (bp ++ [nm ++ "-" ++ i]) ∈
        (handle_start env uh ui (some i) model "claude" []).trace ∧
      .tmuxAttach ("fuzemill-" ++ i) ∈
        (handle_start env uh ui (some i) model "claude" []).trace) := by
  constructor
  · intro env uh ui model i s nm r bp hroot hfile hex hnm hbp hnew hadd hns
    refine ⟨by simp [spec_side_checkout_path, hnm, hbp], ?_, ?_⟩ <;>
      rcases hb : env.backend <;>
        cases henv : env.envrcExists <;>
          rcases hat : env.spawnEnv.attachRes with _ | ab <;>
            simp [handle_start, check_issue_exists, check_issue_exists_beads,
              check_issue_exists_github, get_git_common_dir, update_issue_status,
              update_issue_status_beads, update_issue_status_github,
              spawn_claude_tmux,
              hroot, hex, hfile, hnm, hbp, hnew, hadd, hns, hat, hb, henv] <;>
            (try (split <;> simp)) <;> (try (split <;> simp))
  · intro env uh ui model i s nm r bp cb cs hroot hfile hcd hex hnm hbp hnew hadd hns
    refine ⟨?_, ?_⟩ <;>
      rcases hb : env.backend <;>
        cases henv : env.envrcExists <;>
          rcases hat : env.spawnEnv.attachRes with _ | ab <;>
            simp [handle_start, check_issue_exists, check_issue_exists_beads,
              check_issue_exists_github, get_git_common_dir, update_issue_status,
              update_issue_status_beads, update_issue_status_github,
              spawn_claude_tmux,
              hroot, hex, hfile, hcd, hnm, hbp, hnew, hadd, hns, hat, hb, henv] <;>
            (try (split <;> simp)) <;> (try (split <;> simp))

/-- Witness for the amended C1: the specification's scenario — repository
"acme" at /w/acme, issue id "7" — derives path /w/acme-7, branch "7" and
session "fuzemill-7"; and a linked-checkout invocation from
/w/nested/acme-extra (primary /w/acme) derives /w/nested/acme-7. -/
theorem C1_amended_witness :
    (spec_side_checkout_path ["w", "acme"] "7" = ["w", "acme-7"] ∧
     .worktreeAdd "7" ["w", "acme-7"] ∈ (handle_start
       ⟨.GitHub, some ["w", "acme"], some (true, ""), some (true, ""), false,
         none, fun _ => false, some true, false, none, ⟨none, some true, some true⟩,
         some true⟩ none none (some "7") none "claude" []).trace ∧
     .tmuxAttach "fuzemill-7" ∈ (handle_start
       ⟨.GitHub, some ["w", "acme"], some (true, ""), some (true, ""), false,
         none, fun _ => false, some true, false, none, ⟨none, some true, some true⟩,
         some true⟩ none none (some "7") none "claude" []).trace) ∧
    .worktreeAdd "7" ["w", "nested", "acme-7"] ∈ (handle_start
      ⟨.GitHub, some ["w", "nested", "acme-extra"], some (true, ""), some (true, ""),
        true, some (true, "/w/acme/.git"), fun _ => false, some true, false, none,
        ⟨none, some true, some true⟩, some true⟩
      none none (some "7") none "claude" []).trace :=
  ⟨C1_amended_derived_names.1
      ⟨.GitHub, some ["w", "acme"], some (true, ""), some (true, ""), false,
        none, fun _ => false, some true, false, none, ⟨none, some true, some true⟩,
        some true⟩ none none none "7" "" "acme" ["w", "acme"] ["w"]
      rfl rfl rfl rfl rfl rfl rfl rfl,
   (C1_amended_derived_names.2
      ⟨.GitHub, some ["w", "nested", "acme-extra"], some (true, ""), some (true, ""),
        true, some (true, "/w/acme/.git"), fun _ => false, some true, false, none,
        ⟨none, some true, some true⟩, some true⟩ none none none "7" "" "acme"
      ["w", "nested", "acme-extra"] ["w", "nested"] true "/w/acme/.git"
      rfl rfl rfl rfl rfl rfl rfl rfl rfl).1⟩

/-- C6: `unstart`'s target resolution.  (1) When the caller is inside a
linked checkout and its current branch equals the issue id, the first
four attempted effects are: the common-dir query, the branch query, the
change of working directory to the primary root, and then the removal of
the CALLER'S OWN checkout root — so the directory change precedes the
removal and the removal target is the caller's checkout.  (2,3)
Otherwise (invoked from the primary checkout, or from a linked checkout
on a different branch) the target is re-derived as
`<primary-parent>/<primary-name>-<id>`; when that path does not exist,
`unstart` fails with the could-not-locate-worktree error, attempts no
removal, and never consults a worktree listing. -/
theorem C6_unstart_target_resolution :
    (∀ (env : UnstartEnv) (i : String) (r : Path) (cb : Bool) (cs : String)
        (bb : Bool) (bs : String),
      env.findRoot = some r → env.gitIsFile = true →
      env.commonDirOut = some (cb, cs) → env.branchOut = some (bb, bs) →
      trimString bs = i → env.setDirOk = true →
      (handle_unstart env i).trace.take 4 =
        [.queryCommonDir r, .queryBranch, .setCurrentDir (parsedMainRepo cs),
         .worktreeRemove r]) ∧
    (∀ (env : UnstartEnv) (i : String) (r bp : Path) (bb : Bool) (bs : String),
      env.findRoot = some r → env.gitIsFile = false →
      env.branchOut = some (bb, bs) → parentDir r = some bp →
      env.pathExists (bp ++ [r.getLast?.getD "unknown" ++ "-" ++ i]) = false →
      (handle_unstart env i).res =
        .error ("Could not find worktree at expected path: " ++
          displayPath (bp ++ [r.getLast?.getD "unknown" ++ "-" ++ i])) ∧
      (∀ p, .worktreeRemove p ∉ (handle_unstart env i).trace) ∧
      .worktreeList ∉ (handle_unstart env i).trace) ∧
    (∀ (env : UnstartEnv) (i : String) (r bp : Path) (cb : Bool) (cs : String)
        (bb : Bool) (bs : String),
      env.findRoot = some r → env.gitIsFile = true →
      env.commonDirOut = some (cb, cs) → env.branchOut = some (bb, bs) →
      trimString bs ≠ i → parentDir (parsedMainRepo cs) = some bp →
      env.pathExists
        (bp ++ [(parsedMainRepo cs).getLast?.getD "unknown" ++ "-" ++ i]) = false →
      (handle_unstart env i).res =
        .error ("Could not find worktree at expected path: " ++
          displayPath
            (bp ++ [(parsedMainRepo cs).getLast?.getD "unknown" ++ "-" ++ i])) ∧
      (∀ p, .worktreeRemove p ∉ (handle_unstart env i).trace) ∧
      .worktreeList ∉ (handle_unstart env i).trace) := by
  refine ⟨?_, ?_, ?_⟩
  · intro env i r cb cs bb bs hroot hfile hcd hbr hbs hsd
    simp [handle_unstart, get_git_common_dir, get_current_branch, set_current_dir,
      hroot, hfile, hcd, hbr, hbs, hsd]
    split <;> simp
  · intro env i r bp bb bs hroot hfile hbr hbp hpe
    refine ⟨?_, ?_, ?_⟩ <;>
      simp [handle_unstart, get_git_common_dir, get_current_branch,
        hroot, hfile, hbr, hbp, hpe]
  · intro env i r bp cb cs bb bs hroot hfile hcd hbr hbs hbp hpe
    refine ⟨?_, ?_, ?_⟩ <;>
      simp [handle_unstart, get_git_common_dir, get_current_branch,
        hroot, hfile, hcd, hbr, hbs, hbp, hpe]

/-- Witness for C6: issue "7", primary /w/acme.  First the linked-caller
case from /w/acme-7 on branch "7" (directory changed to /w/acme, own
checkout removed); then the absent-sibling case from the primary
checkout, failing with the could-not-locate error. -/
theorem C6_unstart_witness :
    (handle_unstart
      ⟨some ["w", "acme-7"], true, some (true, "/w/acme/.git"), some (true, "7\n"),
        true, fun _ => false, some true, some true, some true⟩ "7").trace.take 4 =
      [.queryCommonDir ["w", "acme-7"], .queryBranch, .setCurrentDir ["w", "acme"],
       .worktreeRemove ["w", "acme-7"]] ∧
    (handle_unstart
      ⟨some ["w", "acme"], false, none, some (true, "main"), true,
        fun _ => false, some true, some true, some true⟩ "7").res =
      .error "Could not find worktree at expected path: /w/acme-7" :=
  ⟨C6_unstart_target_resolution.1
      ⟨some ["w", "acme-7"], true, some (true, "/w/acme/.git"), some (true, "7\n"),
        true, fun _ => false, some true, some true, some true⟩ "7" ["w", "acme-7"]
      true "/w/acme/.git" true "7\n" rfl rfl rfl rfl (by decide) rfl,
   (C6_unstart_target_resolution.2.1
      ⟨some ["w", "acme"], false, none, some (true, "main"), true,
        fun _ => false, some true, some true, some true⟩ "7" ["w", "acme"] ["w"]
      true "main" rfl rfl rfl rfl rfl).1⟩

/-- C8 counterexample: branch deletion is not attempted in EVERY
`unstart` invocation — when the worktree removal step fails (non-zero
exit), `unstart` aborts with "git worktree remove failed" before ever
running `git branch -D`. -/
theorem C8_branch_delete_not_always_attempted :
    (handle_unstart
      ⟨some ["w", "acme"], false, none, some (true, "main"), true,
        fun _ => true, some false, some true, some true⟩ "7").res =
      .error "git worktree remove failed" ∧
    (∀ b, .branchDelete b ∉ (handle_unstart
      ⟨some ["w", "acme"], false, none, some (true, "main"), true,
        fun _ => true, some false, some true, some true⟩ "7").trace) := by
  constructor
  · rfl
  · intro b
    simp [handle_unstart, get_git_common_dir, get_current_branch, parentDir]

/-- C8 as amended: whenever `unstart` reaches and succeeds at the
worktree-removal step, deleting the branch named after the issue id is
attempted next, and a non-zero exit of that deletion is only a warning:
it never changes `unstart`'s outcome (first conjunct, fully generally),
and in particular `unstart` still completes successfully (second
conjunct, for a resolved sibling target). -/
theorem C8_amended_branch_delete_warning_only :
    (∀ (env : UnstartEnv) (i : String),
      (handle_unstart {env with branchDelRes := some false} i).res =
      (handle_unstart {env with branchDelRes := some true} i).res) ∧
    (∀ (env : UnstartEnv) (i : String) (r bp : Path) (bb : Bool) (bs : String),
      env.findRoot = some r → env.gitIsFile = false →
      env.branchOut = some (bb, bs) → parentDir r = some bp →
      env.pathExists (bp ++ [r.getLast?.getD "unknown" ++ "-" ++ i]) = true →
      env.removeRes = some true → env.branchDelRes = some false →
      .branchDelete i ∈ (handle_unstart env i).trace ∧
      (handle_unstart env i).res = .ok ()) := by
  constructor
  · intro env i
    unfold handle_unstart
    simp only [bind_eq_stepBind, stepBind_pure]
    repeat' (first
      | (with_reducible rfl)
      | (apply stepBind_res_congr; intro x)
      | split
      | simp)
  · intro env i r bp bb bs hroot hfile hbr hbp hpe hrm hbd
    refine ⟨?_, ?_⟩ <;>
      simp [handle_unstart, get_git_common_dir, get_current_branch,
        hroot, hfile, hbr, hbp, hpe, hrm, hbd]

/-- Witness for the amended C8: concrete environment where branch
deletion exits non-zero yet unstart succeeds with the deletion attempted,
and flipping the deletion outcome leaves the result unchanged. -/
theorem C8_amended_witness :
    (.branchDelete "7" ∈ (handle_unstart
      ⟨some ["w", "acme"], false, none, some (true, "main"), true,
        fun _ => true, some true, some false, some true⟩ "7").trace ∧
     (handle_unstart
      ⟨some ["w", "acme"], false, none, some (true, "main"), true,
        fun _ => true, some true, some false, some true⟩ "7").res = .ok ()) ∧
    (handle_unstart
      ⟨some ["w", "acme"], false, none, some (true, "main"), true,
        fun _ => true, some true, some false, some true⟩ "7").res =
    (handle_unstart
      ⟨some ["w", "acme"], false, none, some (true, "main"), true,
        fun _ => true, some true, some true, some true⟩ "7").res :=
  ⟨C8_amended_branch_delete_warning_only.2
      ⟨some ["w", "acme"], false, none, some (true, "main"), true,
        fun _ => true, some true, some false, some true⟩ "7" ["w", "acme"] ["w"]
      true "main" rfl rfl rfl rfl rfl rfl rfl,
   C8_amended_branch_delete_warning_only.1
      ⟨some ["w", "acme"], false, none, some (true, "main"), true,
        fun _ => true, some true, none, some true⟩ "7"⟩

end Fuzemill
